import Mathlib

/-!
Verification of the Pulse financial-data SDK (packages/sdk, packages/plaid-adapter,
teller adapter) against its natural-language specification.

The development shallowly embeds the dispatch/unification object (`Pulse` in
`packages/sdk/src/index.ts`), the base-adapter default `refreshAccounts`
(`packages/sdk/src/interfaces.ts`), and the Teller adapter's session teardown
(`TellerAdapter.disconnect` / `disconnectUser`).

Each registered adapter is modelled as an oracle record: the outcome of one call
to each adapter operation for the parameters of the call under consideration is
a fixed `Except Thrown _` value.  Dispatch operations return a trace (the list of
provider identifiers whose operation was invoked, in invocation order) paired
with the overall outcome; `Promise.all` is modelled as: every entry of the batch
is invoked (hence the full trace), and the batch rejects with the first
rejection, settlement order taken as list order.
-/

/-- `ErrorCode` enum from `packages/sdk/src/types.ts`. -/
inductive ErrorCode where
  | PROVIDER_NOT_FOUND
  | PROVIDER_CONNECTION_FAILED
  | PROVIDER_DISCONNECTION_FAILED
  | ACCOUNT_FETCH_FAILED
  | TRANSACTION_FETCH_FAILED
  | ACCOUNT_REFRESH_FAILED
  | VALIDATION_ERROR
  | CONFIGURATION_ERROR
  | UNKNOWN_ERROR
  | METHOD_NOT_SUPPORTED
  deriving DecidableEq, Repr

/-- `PulseError` from `packages/sdk/src/types.ts`: a tagged error carrying a
message, a code, and optional provider/user/account metadata (the unused
`method`/`details` fields are omitted). -/
structure PulseError where
  message : String
  code : ErrorCode
  provider : Option String := none
  userId : Option String := none
  accountId : Option String := none
  deriving DecidableEq, Repr

/-- A thrown JavaScript value as the dispatch layer distinguishes them:
a tagged `PulseError` (`error instanceof PulseError`), a plain `Error`
(`error instanceof Error`, carrying a message), or any other throwable,
observed only through its string coercion `String(error)`. -/
inductive Thrown where
  | pulseErr : PulseError → Thrown
  | jsErr : String → Thrown
  | nonErr : String → Thrown
  deriving DecidableEq, Repr

/-- The message the wrapping handlers extract:
`error instanceof Error ? error.message : String(error)`. -/
def Thrown.msg : Thrown → String
  | .pulseErr e => e.message
  | .jsErr m => m
  | .nonErr s => s

/-- `AccountType` enum from `packages/sdk/src/types.ts`. -/
inductive AccountType where
  | CHECKING | SAVINGS | CREDIT | INVESTMENT | LOAN | CRYPTO | OTHER
  deriving DecidableEq, Repr

/-- `TransactionType` enum from `packages/sdk/src/types.ts`. -/
inductive TransactionType where
  | CREDIT | DEBIT
  deriving DecidableEq, Repr

/-- Normalized `Account` from `packages/sdk/src/types.ts` (`metadata` omitted;
the numeric balance is modelled as an integer, no claim computes with it). -/
structure Account where
  id : String
  name : String
  type : AccountType
  balance : Int
  currency : String
  lastUpdated : String
  deriving DecidableEq, Repr

/-- Normalized `Transaction` from `packages/sdk/src/types.ts` (`metadata`
omitted, amount as integer magnitude). -/
structure Transaction where
  id : String
  accountId : String
  amount : Int
  currency : String
  description : String
  type : TransactionType
  date : String
  deriving DecidableEq, Repr

deriving instance DecidableEq for Except

/-- A registered adapter, as the dispatch layer observes it for one call:
its provider identifier plus the outcome of each operation (`PulseAdapter`
interface in `packages/sdk/src/interfaces.ts`).  The two optional capabilities
are `Option`-valued: `none` models the method being absent on the adapter
object. -/
structure Adapter where
  provider : String
  connectR : Except Thrown Unit := .ok ()
  disconnectR : Except Thrown Unit := .ok ()
  getAccountsR : Except Thrown (List Account) := .ok []
  getTransactionsR : Except Thrown (List Transaction) := .ok []
  refreshAccountsR : Except Thrown Unit := .ok ()
  exchangePublicTokenR : Option (Except Thrown Unit) := none
  storeAccessTokenR : Option (Except Thrown Unit) := none
  deriving DecidableEq, Repr

/-- The adapter registry: a JavaScript `Map` keyed by provider identifier,
modelled as an insertion-ordered association list. -/
abbrev Registry := List (String × Adapter)

/-- `Map.prototype.get`. -/
def Registry.lookup (m : Registry) (k : String) : Option Adapter :=
  match m with
  | [] => none
  | (k', v) :: rest => if k' == k then some v else Registry.lookup rest k

/-- `Map.prototype.set`: an existing key keeps its insertion position and its
value is overwritten; a new key is appended. -/
def Registry.set (m : Registry) (k : String) (v : Adapter) : Registry :=
  match m with
  | [] => [(k, v)]
  | (k', v') :: rest =>
    if k' == k then (k', v) :: rest else (k', v') :: Registry.set rest k v

/-- `Array.from(map.values())`: values in insertion order. -/
def Registry.values (m : Registry) : List Adapter :=
  m.map (·.2)

/-- The dispatch object's state (`Pulse` class fields). -/
structure Pulse where
  registry : Registry
  defaultProvider : Option String := none
  deriving DecidableEq, Repr

/-- `PulseOptions` from `packages/sdk/src/interfaces.ts`; `adapters` is
`Option`-valued because the constructor guards against a missing list
(`!options.adapters`). -/
structure PulseOptions where
  adapters : Option (List Adapter) := none
  defaultProvider : Option String := none

/-- The registry built by the constructor's
`options.adapters.forEach((adapter) => this.adapters.set(adapter.provider, adapter))`. -/
def buildRegistry (l : List Adapter) : Registry :=
  l.foldl (fun m a => Registry.set m a.provider a) []

/-- The `PulseError` thrown by the constructor on a missing or empty adapter list. -/
def configurationError : PulseError :=
  { message := "At least one adapter must be provided"
    code := .CONFIGURATION_ERROR }

/-- The `Pulse` constructor (`packages/sdk/src/index.ts` lines 45-59). -/
def mkPulse (o : PulseOptions) : Except PulseError Pulse :=
  match o.adapters with
  | none => .error configurationError
  | some l =>
    if l.isEmpty then .error configurationError
    else .ok { registry := buildRegistry l, defaultProvider := o.defaultProvider }

/-- JavaScript truthiness of an optional string: `undefined` and `''` are falsy. -/
def strTruthy : Option String → Bool
  | none => false
  | some s => s != ""

/-- The `PROVIDER_NOT_FOUND` error raised by `getAdapter` for an unregistered name. -/
def providerNotFoundErr (s : String) : PulseError :=
  { message := "Provider " ++ s ++ " not found"
    code := .PROVIDER_NOT_FOUND
    provider := some s }

/-- The default/fallback half of `getAdapter`: the configured default provider if
truthy and registered, else `Array.from(this.adapters.values())[0]`.  On an empty
registry the source expression is `undefined` and the subsequent method call
raises a `TypeError`; that branch is modelled as a thrown plain error (it is
unreachable for a constructed `Pulse`, whose registry is nonempty). -/
def Pulse.firstOrDefault (p : Pulse) : Except Thrown Adapter :=
  let fallback : Except Thrown Adapter :=
    match (Registry.values p.registry).head? with
    | some a => .ok a
    | none => .error (.jsErr "TypeError: cannot call a method of undefined")
  match p.defaultProvider with
  | some d =>
    if d != "" then
      match Registry.lookup p.registry d with
      | some a => .ok a
      | none => fallback
    else fallback
  | none => fallback

/-- `Pulse.getAdapter` (`packages/sdk/src/index.ts` lines 68-87): a truthy name
is looked up (absence raises `PROVIDER_NOT_FOUND`); otherwise the default
provider, if truthy and registered, else the first-inserted registry value. -/
def Pulse.getAdapter (p : Pulse) (prov : Option String) : Except Thrown Adapter :=
  match prov with
  | some s =>
    if s != "" then
      match Registry.lookup p.registry s with
      | some a => .ok a
      | none => .error (.pulseErr (providerNotFoundErr s))
    else p.firstOrDefault
  | none => p.firstOrDefault

/-- The shared `catch` shape of every public dispatch operation: an already
tagged `PulseError` is re-raised unchanged; anything else is wrapped into a
`PulseError` with the operation-specific code, message head, and metadata. -/
def wrapCatch (code : ErrorCode) (msgHead : String) (prov uid acc : Option String) :
    Except Thrown α → Except Thrown α
  | .ok x => .ok x
  | .error (.pulseErr e) => .error (.pulseErr e)
  | .error t =>
    .error (.pulseErr
      { message := msgHead ++ t.msg, code := code
        provider := prov, userId := uid, accountId := acc })

/-- A named single-adapter call: `this.getAdapter({ provider }).op(params)`.
The trace records which adapter was invoked (empty when resolution itself threw). -/
def namedCall (p : Pulse) (prov : Option String) (f : Adapter → Except Thrown α) :
    List String × Except Thrown α :=
  match p.getAdapter prov with
  | .ok a => ([a.provider], f a)
  | .error e => ([], .error e)

/-- The outcome of `Promise.all` over a batch of unit promises: `ok` if every
entry resolved, else the first rejection in list order. -/
def firstError : List (Except Thrown Unit) → Except Thrown Unit
  | [] => .ok ()
  | .ok _ :: rest => firstError rest
  | .error e :: _ => .error e

/-- `Promise.all(values.map(op))`: every adapter's operation is invoked (full
trace), the joint outcome is `firstError`. -/
def fanout (calls : List (String × Except Thrown Unit)) :
    List String × Except Thrown Unit :=
  (calls.map (·.1), firstError (calls.map (·.2)))

/-- Body of `Pulse.connect` inside the `try` (lines 117-132): named call when the
provider is truthy, else a concurrent batch over all adapters with no
per-adapter catch. -/
def connectBody (p : Pulse) (prov : Option String) : List String × Except Thrown Unit :=
  if strTruthy prov then namedCall p prov (·.connectR)
  else fanout ((Registry.values p.registry).map fun a => (a.provider, a.connectR))

/-- `Pulse.connect` (lines 112-146). -/
def Pulse.connect (p : Pulse) (userId : String) (prov : Option String) :
    List String × Except Thrown Unit :=
  let (tr, r) := connectBody p prov
  (tr, wrapCatch .PROVIDER_CONNECTION_FAILED "Failed to connect: " prov (some userId) none r)

/-- Body of `Pulse.disconnect` inside the `try` (lines 162-174): named call when
the provider is truthy, else a concurrent batch over all adapters — note there
is no per-adapter catch here, unlike `getAccounts`/`refreshAccounts`. -/
def disconnectBody (p : Pulse) (prov : Option String) : List String × Except Thrown Unit :=
  if strTruthy prov then namedCall p prov (·.disconnectR)
  else fanout ((Registry.values p.registry).map fun a => (a.provider, a.disconnectR))

/-- `Pulse.disconnect` (lines 161-188). -/
def Pulse.disconnect (p : Pulse) (userId : String) (prov : Option String) :
    List String × Except Thrown Unit :=
  let (tr, r) := disconnectBody p prov
  (tr, wrapCatch .PROVIDER_DISCONNECTION_FAILED "Failed to disconnect: " prov (some userId) none r)

/-- The per-adapter `.catch` in the `getAccounts` fan-out: a failing adapter's
promise resolves to `[]` (the error is logged to the console, not raised). -/
def caughtAccounts : Except Thrown (List Account) → List Account
  | .ok l => l
  | .error _ => []

/-- Body of `Pulse.getAccounts` inside the `try` (lines 210-231): named call when
the provider is truthy, else every adapter is invoked with a per-adapter catch
and the settled lists are flattened in registration order. -/
def getAccountsBody (p : Pulse) (prov : Option String) :
    List String × Except Thrown (List Account) :=
  if strTruthy prov then namedCall p prov (·.getAccountsR)
  else
    ((Registry.values p.registry).map (·.provider),
      .ok ((Registry.values p.registry).map fun a => caughtAccounts a.getAccountsR).flatten)

/-- `Pulse.getAccounts` (lines 204-245). -/
def Pulse.getAccounts (p : Pulse) (userId : String) (prov : Option String) :
    List String × Except Thrown (List Account) :=
  let (tr, r) := getAccountsBody p prov
  (tr, wrapCatch .ACCOUNT_FETCH_FAILED "Failed to fetch accounts: " prov (some userId) none r)

/-- `errors.map((e) => e.message).join('; ')` over the accumulated adapter
failures of the `getTransactions` fallback chain. -/
def joinSemi : List String → String
  | [] => ""
  | [m] => m
  | m :: rest => m ++ "; " ++ joinSemi rest

/-- The sequential fallback loop of `getTransactions` (lines 282-296): adapters
are tried in registration order until the first success; the trace records the
adapters actually tried; on exhaustion a single aggregated
`TRANSACTION_FETCH_FAILED` error combines every accumulated message. -/
def txFallback (uid acc : String) (errs : List String) :
    List Adapter → List String × Except Thrown (List Transaction)
  | [] =>
    ([], .error (.pulseErr
      { message := "All providers failed to fetch transactions: " ++ joinSemi errs
        code := .TRANSACTION_FETCH_FAILED
        userId := some uid, accountId := some acc }))
  | a :: rest =>
    match a.getTransactionsR with
    | .ok ts => ([a.provider], .ok ts)
    | .error e =>
      let (tr, r) := txFallback uid acc (errs ++ [e.msg]) rest
      (a.provider :: tr, r)

/-- Body of `Pulse.getTransactions` inside the outer `try` (lines 268-296). -/
def getTransactionsBody (p : Pulse) (acc uid : String) (prov : Option String) :
    List String × Except Thrown (List Transaction) :=
  if strTruthy prov then namedCall p prov (·.getTransactionsR)
  else txFallback uid acc [] (Registry.values p.registry)

/-- `Pulse.getTransactions` (lines 262-310). -/
def Pulse.getTransactions (p : Pulse) (acc uid : String) (prov : Option String) :
    List String × Except Thrown (List Transaction) :=
  let (tr, r) := getTransactionsBody p acc uid prov
  (tr, wrapCatch .TRANSACTION_FETCH_FAILED "Failed to fetch transactions: " prov (some uid) (some acc) r)

/-- The per-adapter `.catch` in the `refreshAccounts` fan-out: a failing
adapter's promise resolves (the error is logged to the console). -/
def caughtRefresh : Except Thrown Unit → Except Thrown Unit
  | .ok _ => .ok ()
  | .error _ => .ok ()

/-- Body of `Pulse.refreshAccounts` inside the `try` (lines 332-351). -/
def refreshAccountsBody (p : Pulse) (prov : Option String) :
    List String × Except Thrown Unit :=
  if strTruthy prov then namedCall p prov (·.refreshAccountsR)
  else fanout ((Registry.values p.registry).map fun a =>
    (a.provider, caughtRefresh a.refreshAccountsR))

/-- `Pulse.refreshAccounts` (lines 326-365). -/
def Pulse.refreshAccounts (p : Pulse) (userId : String) (prov : Option String) :
    List String × Except Thrown Unit :=
  let (tr, r) := refreshAccountsBody p prov
  (tr, wrapCatch .ACCOUNT_REFRESH_FAILED "Failed to refresh accounts: " prov (some userId) none r)

/-- Body of `Pulse.exchangePublicToken` inside the `try` (lines 387-398):
resolve the adapter for the (required) provider argument, fail with a
`PROVIDER_CONNECTION_FAILED` tagged error when the optional method is absent,
else invoke it. -/
def exchangePublicTokenBody (p : Pulse) (userId provider : String) :
    Except Thrown Unit :=
  match p.getAdapter (some provider) with
  | .error e => .error e
  | .ok a =>
    match a.exchangePublicTokenR with
    | none =>
      .error (.pulseErr
        { message := "Provider " ++ provider ++ " does not support token exchange"
          code := .PROVIDER_CONNECTION_FAILED
          provider := some provider, userId := some userId })
    | some r => r

/-- `Pulse.exchangePublicToken` (lines 382-412); the public-token argument only
flows into the adapter oracle and is omitted. -/
def Pulse.exchangePublicToken (p : Pulse) (userId provider : String) :
    Except Thrown Unit :=
  wrapCatch .PROVIDER_CONNECTION_FAILED "Failed to exchange public token: "
    (some provider) (some userId) none (exchangePublicTokenBody p userId provider)

/-- Body of `Pulse.storeAccessToken` inside the `try` (lines 434-445). -/
def storeAccessTokenBody (p : Pulse) (userId provider : String) :
    Except Thrown Unit :=
  match p.getAdapter (some provider) with
  | .error e => .error e
  | .ok a =>
    match a.storeAccessTokenR with
    | none =>
      .error (.pulseErr
        { message := "Provider " ++ provider ++ " does not support storing access tokens directly"
          code := .PROVIDER_CONNECTION_FAILED
          provider := some provider, userId := some userId })
    | some r => r

/-- `Pulse.storeAccessToken` (lines 429-459). -/
def Pulse.storeAccessToken (p : Pulse) (userId provider : String) :
    Except Thrown Unit :=
  wrapCatch .PROVIDER_CONNECTION_FAILED "Failed to store access token: "
    (some provider) (some userId) none (storeAccessTokenBody p userId provider)

/-!  The base adapter's default `refreshAccounts`
(`packages/sdk/src/interfaces.ts` lines 86-103).  An individual adapter's
`connect`/`disconnect` behaviour is abstracted as a state transformer over an
arbitrary adapter-local state type. -/

/-- The observable `connect`/`disconnect` behaviour of one concrete adapter for
a fixed parameter record: each call transforms the adapter-local state and
either resolves or throws. -/
structure AdapterBehavior (σ : Type) where
  connect : σ → σ × Except Thrown Unit
  disconnect : σ → σ × Except Thrown Unit

/-- The `catch` of the default `refreshAccounts`: an already tagged error is
re-raised unchanged, anything else is wrapped into `ACCOUNT_REFRESH_FAILED`. -/
def rewrapRefresh (pname : String) (uid : Option String) : Thrown → Thrown
  | .pulseErr e => .pulseErr e
  | t => .pulseErr
      { message := "Failed to refresh accounts: " ++ t.msg
        code := .ACCOUNT_REFRESH_FAILED
        provider := some pname, userId := uid }

/-- `BasePulseAdapter.refreshAccounts` (interfaces.ts lines 86-103):
`await this.disconnect(params); await this.connect(params)` inside a `try`
whose `catch` is `rewrapRefresh`. -/
def refreshAccountsDefault (b : AdapterBehavior σ) (pname : String)
    (uid : Option String) (s : σ) : σ × Except Thrown Unit :=
  match b.disconnect s with
  | (s1, .error e) => (s1, .error (rewrapRefresh pname uid e))
  | (s1, .ok _) =>
    match b.connect s1 with
    | (s2, .error e) => (s2, .error (rewrapRefresh pname uid e))
    | (s2, .ok _) => (s2, .ok ())

/-- Modelled from the spec: "`refreshAccounts(userId)` with no override is
observably equivalent to `disconnect(userId)` followed by `connect(userId)` on
the same adapter" — the plain sequential composition of the two operations,
with no error wrapping, for comparison with `refreshAccountsDefault`. -/
def disconnectThenConnect (b : AdapterBehavior σ) (s : σ) : σ × Except Thrown Unit :=
  match b.disconnect s with
  | (s1, .error e) => (s1, .error e)
  | (s1, .ok _) => b.connect s1

/-- Mapping a function over the error of an outcome. -/
def mapThrown (f : Thrown → Thrown) : Except Thrown α → Except Thrown α
  | .ok x => .ok x
  | .error e => .error (f e)

/-!  The Teller adapter's session teardown (`TellerAdapter.disconnect` /
`disconnectUser`, unnamed teller-adapter source lines 160-219).  The adapter's
one mutable resource is its `accessTokens` record, modelled as an
insertion-ordered association list from userId to token (JavaScript object
string keys enumerate in insertion order).  The remote revoke call is an
oracle `revokeOk : String → Bool` giving, per user, whether
`POST /connect/token/revoke` returns ok. -/

/-- The `accessTokens` record of one Teller adapter instance. -/
abbrev Tokens := List (String × String)

/-- Property/index access `this.accessTokens[userId]`. -/
def Tokens.lookup (t : Tokens) (k : String) : Option String :=
  match t with
  | [] => none
  | (k', v) :: rest => if k' == k then some v else Tokens.lookup rest k

/-- `delete this.accessTokens[userId]`. -/
def Tokens.erase (t : Tokens) (k : String) : Tokens :=
  match t with
  | [] => []
  | (k', v) :: rest =>
    if k' == k then Tokens.erase rest k else (k', v) :: Tokens.erase rest k

/-- `Object.keys(this.accessTokens)`. -/
def Tokens.keys (t : Tokens) : List String :=
  t.map (·.1)

/-- `TellerAdapter.disconnectUser` (lines 191-219): no tracked token is a
no-op; otherwise the revoke call runs inside a `try` whose `finally` deletes
the local token unconditionally, and a failing revoke throws a tagged
`PROVIDER_DISCONNECTION_FAILED` error after the deletion. -/
def tellerDisconnectUser (revokeOk : String → Bool) (t : Tokens) (userId : String) :
    Tokens × Except Thrown Unit :=
  match t.lookup userId with
  | none => (t, .ok ())
  | some _ =>
    let t2 := t.erase userId
    if revokeOk userId then (t2, .ok ())
    else
      (t2, .error (.pulseErr
        { message := "Failed to revoke Teller token: error"
          code := .PROVIDER_DISCONNECTION_FAILED
          provider := some "teller", userId := some userId }))

/-- The `for (const id of Object.keys(this.accessTokens))` loop of the
no-userId branch: each user is awaited in turn, so a thrown revoke failure
aborts the remaining iterations. -/
def tellerDisconnectAll (revokeOk : String → Bool) :
    List String → Tokens → Tokens × Except Thrown Unit
  | [], t => (t, .ok ())
  | u :: rest, t =>
    match tellerDisconnectUser revokeOk t u with
    | (t2, .ok _) => tellerDisconnectAll revokeOk rest t2
    | (t2, .error e) => (t2, .error e)

/-- `TellerAdapter.disconnect` (lines 160-186): a falsy `userId` (absent or
empty) disconnects every tracked user over the materialized key list; the
`catch` re-raises tagged errors unchanged and wraps anything else into
`PROVIDER_DISCONNECTION_FAILED`. -/
def tellerDisconnect (revokeOk : String → Bool) (t : Tokens) (userId : Option String) :
    Tokens × Except Thrown Unit :=
  let (t2, r) :=
    match userId with
    | some u =>
      if u != "" then tellerDisconnectUser revokeOk t u
      else tellerDisconnectAll revokeOk t.keys t
    | none => tellerDisconnectAll revokeOk t.keys t
  (t2, wrapCatch .PROVIDER_DISCONNECTION_FAILED "Failed to disconnect from Teller: "
    (some "teller") userId none r)

/-!  Registry lemmas. -/

/-- Setting a key makes it found. -/
theorem lookup_set_self (m : Registry) (k : String) (v : Adapter) :
    Registry.lookup (Registry.set m k v) k = some v := by
  induction m with
  | nil => simp [Registry.set, Registry.lookup]
  | cons hd tl ih =>
    obtain ⟨k0, v0⟩ := hd
    by_cases h : k0 = k
    · subst h; simp [Registry.set, Registry.lookup]
    · simp [Registry.set, Registry.lookup, h, ih]

/-- Setting one key leaves the others unchanged. -/
theorem lookup_set_ne (m : Registry) (k : String) (v : Adapter) (k' : String)
    (h : k ≠ k') :
    Registry.lookup (Registry.set m k v) k' = Registry.lookup m k' := by
  induction m with
  | nil => simp [Registry.set, Registry.lookup, h]
  | cons hd tl ih =>
    obtain ⟨k0, v0⟩ := hd
    by_cases h0 : k0 = k
    · subst h0; simp [Registry.set, Registry.lookup, h]
    · by_cases h1 : k0 = k'
      · subst h1; simp [Registry.set, Registry.lookup, h0]
      · simp [Registry.set, Registry.lookup, h0, h1, ih]

/-- Every adapter of the constructed list leaves a registry entry under its
provider key, holding an adapter with that same provider. -/
theorem lookup_foldl_set_provider :
    ∀ (l : List Adapter) (m : Registry) (k : String),
    ((∃ b, Registry.lookup m k = some b ∧ b.provider = k) ∨ (∃ a ∈ l, a.provider = k)) →
    ∃ b, Registry.lookup (l.foldl (fun acc a => Registry.set acc a.provider a) m) k = some b ∧
      b.provider = k := by
  intro l
  induction l with
  | nil =>
    intro m k h
    rcases h with h | ⟨a, ha, _⟩
    · exact h
    · exact absurd ha (List.not_mem_nil a)
  | cons a l ih =>
    intro m k h
    simp only [List.foldl_cons]
    apply ih
    by_cases hk : a.provider = k
    · left
      refine ⟨a, ?_, hk⟩
      rw [← hk]
      exact lookup_set_self m a.provider a
    · rcases h with ⟨b, hb, hbp⟩ | ⟨c, hc, hcp⟩
      · left
        exact ⟨b, by rw [lookup_set_ne m a.provider a k hk]; exact hb, hbp⟩
      · rcases List.mem_cons.mp hc with rfl | hc2
        · exact absurd hcp hk
        · right; exact ⟨c, hc2, hcp⟩

/-- A fresh key is appended by `Registry.set`. -/
theorem set_eq_append_of_fresh (m : Registry) (k : String) (v : Adapter)
    (h : Registry.lookup m k = none) :
    Registry.set m k v = m ++ [(k, v)] := by
  induction m with
  | nil => rfl
  | cons hd tl ih =>
    obtain ⟨k0, v0⟩ := hd
    by_cases hk : k0 = k
    · subst hk; simp [Registry.lookup] at h
    · have h' : Registry.lookup tl k = none := by
        simpa [Registry.lookup, hk] using h
      simp [Registry.set, hk, ih h']

/-- Lookup distributes over registry concatenation. -/
theorem lookup_append (m1 m2 : Registry) (k : String) :
    Registry.lookup (m1 ++ m2) k =
      match Registry.lookup m1 k with
      | some v => some v
      | none => Registry.lookup m2 k := by
  induction m1 with
  | nil => rfl
  | cons hd tl ih =>
    obtain ⟨k0, v0⟩ := hd
    by_cases hk : k0 = k
    · simp [Registry.lookup, hk]
    · simpa [Registry.lookup, hk] using ih

/-- Folding distinct, fresh adapters into a registry appends their values in
construction order. -/
theorem values_foldl_fresh :
    ∀ (l : List Adapter) (m : Registry),
    (l.map (·.provider)).Nodup →
    (∀ a ∈ l, Registry.lookup m a.provider = none) →
    Registry.values (l.foldl (fun acc a => Registry.set acc a.provider a) m) =
      Registry.values m ++ l := by
  intro l
  induction l with
  | nil => intro m _ _; simp
  | cons a l ih =>
    intro m hnd hm
    have hma : Registry.lookup m a.provider = none := hm a (List.mem_cons_self a l)
    have hnd' : (l.map (·.provider)).Nodup := (List.nodup_cons.mp hnd).2
    have hna : a.provider ∉ l.map (·.provider) := (List.nodup_cons.mp hnd).1
    simp only [List.foldl_cons]
    rw [ih _ hnd' ?_]
    · rw [set_eq_append_of_fresh m a.provider a hma]
      simp [Registry.values]
    · intro b hb
      rw [set_eq_append_of_fresh m a.provider a hma, lookup_append, hm b (List.mem_cons_of_mem a hb)]
      have hne : a.provider ≠ b.provider := by
        intro hEq
        exact hna (hEq ▸ List.mem_map_of_mem (·.provider) hb)
      simp [Registry.lookup, hne]

/-- With pairwise-distinct providers, the registry values are the constructed
adapter list itself, in construction order. -/
theorem values_buildRegistry (l : List Adapter) (h : (l.map (·.provider)).Nodup) :
    Registry.values (buildRegistry l) = l := by
  have := values_foldl_fresh l [] h (fun a _ => rfl)
  simpa [buildRegistry, Registry.values] using this

/-!  Helper observers and lemmas about the fan-out and fallback combinators. -/

/-- Whether an outcome is a rejection. -/
def isError : Except Thrown α → Bool
  | .error _ => true
  | .ok _ => false

/-- Whether adapter resolution rejected with a `PROVIDER_NOT_FOUND` tagged error. -/
def notFoundRaised : Except Thrown Adapter → Bool
  | .error (.pulseErr e) => e.code == .PROVIDER_NOT_FOUND
  | _ => false

/-- The wrapping handler turns any rejection into a tagged one. -/
theorem wrapCatch_error (c : ErrorCode) (mh : String) (pr ui ac : Option String)
    (t : Thrown) :
    ∃ e, wrapCatch c mh pr ui ac (.error t) = (.error (.pulseErr e) : Except Thrown α) := by
  cases t <;> exact ⟨_, rfl⟩

/-- A batch with only resolved entries resolves. -/
theorem firstError_ok (rs : List (Except Thrown Unit))
    (h : ∀ r ∈ rs, r = .ok ()) : firstError rs = .ok () := by
  induction rs with
  | nil => rfl
  | cons r rest ih =>
    have hr := h r (List.mem_cons_self r rest)
    subst hr
    exact ih fun r' hr' => h r' (List.mem_cons_of_mem _ hr')

/-- A batch containing a rejection rejects. -/
theorem firstError_of_mem_error (rs : List (Except Thrown Unit))
    (r : Except Thrown Unit) (hr : r ∈ rs) (he : isError r = true) :
    ∃ e, firstError rs = .error e := by
  induction rs with
  | nil => exact absurd hr (List.not_mem_nil r)
  | cons r0 rest ih =>
    cases h0 : r0 with
    | error e => exact ⟨e, by simp [firstError, h0]⟩
    | ok u =>
      rcases List.mem_cons.mp hr with rfl | hmem
      · rw [h0] at he; simp [isError] at he
      · obtain ⟨e, hfe⟩ := ih hmem
        exact ⟨e, by cases u; simpa [firstError, h0] using hfe⟩

/-- String concatenation concatenates the underlying character lists. -/
theorem strData_append (a b : String) : (a ++ b).data = a.data ++ b.data := by
  cases a; cases b; rfl

/-- Every member of the joined message list occurs verbatim inside the join. -/
theorem joinSemi_mem (l : List String) (m : String) (hm : m ∈ l) :
    ∃ s t, s ++ m.data ++ t = (joinSemi l).data := by
  induction l with
  | nil => exact absurd hm (List.not_mem_nil m)
  | cons m0 rest ih =>
    rcases List.mem_cons.mp hm with rfl | hmem
    · cases rest with
      | nil => exact ⟨[], [], by simp [joinSemi]⟩
      | cons m1 rest' =>
        refine ⟨[], ("; " ++ joinSemi (m1 :: rest')).data, ?_⟩
        simp [joinSemi, strData_append]
    · obtain ⟨s, t, hst⟩ := ih hmem
      cases rest with
      | nil => exact absurd hmem (List.not_mem_nil m)
      | cons m1 rest' =>
        refine ⟨(m0 ++ "; ").data ++ s, t, ?_⟩
        rw [List.append_assoc, List.append_assoc, ← List.append_assoc s, hst]
        simp [joinSemi, strData_append]

/-- The message each failing adapter contributes to the aggregate. -/
def txErrMsg (a : Adapter) : String :=
  match a.getTransactionsR with
  | .error e => e.msg
  | .ok _ => ""

/-- When every adapter of the chain fails, the fallback tries them all and
aggregates every message, appended after the already-accumulated ones. -/
theorem txFallback_all_fail (uid acc : String) :
    ∀ (rs : List Adapter) (errs : List String),
    (∀ a ∈ rs, isError a.getTransactionsR = true) →
    txFallback uid acc errs rs =
      (rs.map (·.provider), .error (.pulseErr
        { message := "All providers failed to fetch transactions: " ++
            joinSemi (errs ++ rs.map txErrMsg)
          code := .TRANSACTION_FETCH_FAILED
          userId := some uid, accountId := some acc })) := by
  intro rs
  induction rs with
  | nil => intro errs _; simp [txFallback]
  | cons a rest ih =>
    intro errs h
    have ha := h a (List.mem_cons_self a rest)
    cases he : a.getTransactionsR with
    | ok ts => rw [he] at ha; simp [isError] at ha
    | error e =>
      have hrest := ih (errs ++ [e.msg]) fun b hb => h b (List.mem_cons_of_mem a hb)
      have hmsg : txErrMsg a = e.msg := by simp [txErrMsg, he]
      simp only [txFallback, he, hrest, List.map_cons, hmsg, List.append_assoc,
        List.singleton_append]

/-- The fallback chain short-circuits at the first adapter that succeeds,
having tried exactly the failing ones before it. -/
theorem txFallback_first_success (uid acc : String) :
    ∀ (pre : List Adapter) (a : Adapter) (post : List Adapter)
      (errs : List String) (ts : List Transaction),
    (∀ b ∈ pre, isError b.getTransactionsR = true) →
    a.getTransactionsR = .ok ts →
    txFallback uid acc errs (pre ++ a :: post) =
      ((pre ++ [a]).map (·.provider), .ok ts) := by
  intro pre
  induction pre with
  | nil =>
    intro a post errs ts _ ha
    simp [txFallback, ha]
  | cons b rest ih =>
    intro a post errs ts h ha
    have hb := h b (List.mem_cons_self b rest)
    cases he : b.getTransactionsR with
    | ok _ => rw [he] at hb; simp [isError] at hb
    | error e =>
      have := ih a post (errs ++ [e.msg]) ts (fun c hc => h c (List.mem_cons_of_mem b hc)) ha
      simp [txFallback, he, this]

/-!  Concrete fixtures used by witnesses and counterexamples. -/

/-- A sample normalized account. -/
def acct1 : Account :=
  { id := "a1", name := "Checking", type := .CHECKING, balance := 100
    currency := "USD", lastUpdated := "2024-01-01" }

/-- A sample normalized transaction. -/
def tx1 : Transaction :=
  { id := "t1", accountId := "a1", amount := 25, currency := "USD"
    description := "Coffee", type := .DEBIT, date := "2024-01-02" }

/-- An adapter whose every operation succeeds, with both optional capabilities. -/
def adA : Adapter :=
  { provider := "alpha", getAccountsR := .ok [acct1], getTransactionsR := .ok [tx1]
    exchangePublicTokenR := some (.ok ()), storeAccessTokenR := some (.ok ()) }

/-- An adapter whose disconnect, account fetch and transaction fetch all fail. -/
def adB : Adapter :=
  { provider := "beta"
    disconnectR := .error (.jsErr "beta revoke failed")
    getAccountsR := .error (.jsErr "beta accounts failed")
    getTransactionsR := .error (.jsErr "beta tx failed") }

/-- A dispatch object over `adA` then `adB`, no default provider. -/
def pAB : Pulse := { registry := buildRegistry [adA, adB] }

/-- An adapter offering neither optional capability (as the Teller adapter
omits `exchangePublicToken`). -/
def adT : Adapter := { provider := "teller" }

/-- A dispatch object with only `adT` registered. -/
def pT : Pulse := { registry := buildRegistry [adT] }

/-- An adapter whose provider identifier is the empty string. -/
def adE : Adapter := { provider := "" }

/-- The dispatch object built from `adE` alone. -/
def pE : Pulse := { registry := buildRegistry [adE] }

/-- An adapter whose transaction fetch fails with a plain error. -/
def adF1 : Adapter := { provider := "f1", getTransactionsR := .error (.jsErr "f1 down") }

/-- An adapter whose transaction fetch fails with a tagged error. -/
def adF2 : Adapter :=
  { provider := "f2"
    getTransactionsR := .error (.pulseErr
      { message := "f2 broke", code := .TRANSACTION_FETCH_FAILED }) }

/-- A dispatch object over the two failing adapters. -/
def pFF : Pulse := { registry := buildRegistry [adF1, adF2] }

/-!  Claims. -/

/-- C8: constructing the dispatch object with an empty or missing adapter list
fails with a tagged `PulseError` whose code is `CONFIGURATION_ERROR`;
construction with at least one adapter succeeds. -/
theorem C8_construction_guard :
    (∀ d, mkPulse { adapters := none, defaultProvider := d } = .error configurationError) ∧
    (∀ d, mkPulse { adapters := some [], defaultProvider := d } = .error configurationError) ∧
    configurationError.code = ErrorCode.CONFIGURATION_ERROR ∧
    (∀ d a l, mkPulse { adapters := some (a :: l), defaultProvider := d } =
      .ok { registry := buildRegistry (a :: l), defaultProvider := d }) :=
  ⟨fun _ => rfl, fun _ => rfl, rfl, fun _ _ _ => rfl⟩

/-- C9 counterexample: constructing the dispatch object with an adapter whose
provider identifier is the empty string succeeds and stores that adapter in the
registry under the empty key — the registry does contain an adapter keyed by an
empty provider identifier. -/
theorem C9_counterexample :
    mkPulse { adapters := some [adE] } = .ok pE ∧
    Registry.lookup pE.registry "" = some adE ∧
    adE.provider = "" := by
  refine ⟨rfl, ?_, rfl⟩
  decide

/-- C9 (amended): the constructor applies no filter on provider identifiers —
every adapter of the list (an empty-string identifier included) yields a
registry entry under its own provider key, holding an adapter with that very
provider; the only construction-time guard is nonemptiness of the list. -/
theorem C9_registered_keys :
    ∀ (l : List Adapter) (a : Adapter), a ∈ l →
    ∃ p, mkPulse { adapters := some l } = .ok p ∧
      ∃ b, Registry.lookup p.registry a.provider = some b ∧ b.provider = a.provider := by
  intro l a ha
  have hne : l.isEmpty = false := by
    cases l with
    | nil => exact absurd ha (List.not_mem_nil a)
    | cons x xs => rfl
  refine ⟨{ registry := buildRegistry l, defaultProvider := none }, ?_, ?_⟩
  · simp [mkPulse, hne]
  · exact lookup_foldl_set_provider l [] a.provider (Or.inr ⟨a, ha, rfl⟩)

/-- C9 witness: the amended statement applied to the singleton list holding the
empty-identifier adapter. -/
theorem C9_witness :
    adE ∈ [adE] ∧
    ∃ p, mkPulse { adapters := some [adE] } = .ok p ∧
      ∃ b, Registry.lookup p.registry adE.provider = some b ∧ b.provider = adE.provider :=
  ⟨List.mem_singleton.mpr rfl, C9_registered_keys [adE] adE (List.mem_singleton.mpr rfl)⟩

/-- C2 counterexample: on a registry whose `teller` adapter implements neither
optional capability, `exchangePublicToken` and `storeAccessToken` fail with a
tagged `PulseError` whose code is `PROVIDER_CONNECTION_FAILED`, not
`METHOD_NOT_SUPPORTED`. -/
theorem C2_counterexample :
    Pulse.exchangePublicToken pT "user-1" "teller" =
      .error (.pulseErr
        { message := "Provider teller does not support token exchange"
          code := .PROVIDER_CONNECTION_FAILED
          provider := some "teller", userId := some "user-1" }) ∧
    Pulse.storeAccessToken pT "user-1" "teller" =
      .error (.pulseErr
        { message := "Provider teller does not support storing access tokens directly"
          code := .PROVIDER_CONNECTION_FAILED
          provider := some "teller", userId := some "user-1" }) ∧
    ErrorCode.PROVIDER_CONNECTION_FAILED ≠ ErrorCode.METHOD_NOT_SUPPORTED := by
  decide

/-- C2 (amended): for every registry and named provider whose registered
adapter lacks the optional capability, `exchangePublicToken` (respectively
`storeAccessToken`) fails with a tagged `PulseError` — but its code is
`PROVIDER_CONNECTION_FAILED` (the declared `METHOD_NOT_SUPPORTED` code is never
raised by the dispatch layer). -/
theorem C2_missing_capability :
    (∀ (p : Pulse) (u prov : String) (a : Adapter), prov ≠ "" →
      Registry.lookup p.registry prov = some a → a.exchangePublicTokenR = none →
      Pulse.exchangePublicToken p u prov = .error (.pulseErr
        { message := "Provider " ++ prov ++ " does not support token exchange"
          code := .PROVIDER_CONNECTION_FAILED
          provider := some prov, userId := some u })) ∧
    (∀ (p : Pulse) (u prov : String) (a : Adapter), prov ≠ "" →
      Registry.lookup p.registry prov = some a → a.storeAccessTokenR = none →
      Pulse.storeAccessToken p u prov = .error (.pulseErr
        { message := "Provider " ++ prov ++ " does not support storing access tokens directly"
          code := .PROVIDER_CONNECTION_FAILED
          provider := some prov, userId := some u })) := by
  constructor
  · intro p u prov a hprov hlook hmiss
    simp [Pulse.exchangePublicToken, exchangePublicTokenBody, Pulse.getAdapter,
      hprov, hlook, hmiss, wrapCatch]
  · intro p u prov a hprov hlook hmiss
    simp [Pulse.storeAccessToken, storeAccessTokenBody, Pulse.getAdapter,
      hprov, hlook, hmiss, wrapCatch]

/-- C2 witness: the amended statement applied to the concrete single-`teller`
registry. -/
theorem C2_witness :
    Pulse.exchangePublicToken pT "u" "teller" = .error (.pulseErr
      { message := "Provider teller does not support token exchange"
        code := .PROVIDER_CONNECTION_FAILED
        provider := some "teller", userId := some "u" }) ∧
    Pulse.storeAccessToken pT "u" "teller" = .error (.pulseErr
      { message := "Provider teller does not support storing access tokens directly"
        code := .PROVIDER_CONNECTION_FAILED
        provider := some "teller", userId := some "u" }) :=
  ⟨C2_missing_capability.1 pT "u" "teller" adT (by decide) (by decide) rfl,
   C2_missing_capability.2 pT "u" "teller" adT (by decide) (by decide) rfl⟩

/-- The remote-revoke oracle of the C3 failing input: the revoke call fails for
`u1` and succeeds for `u2`. -/
def revokeFailU1 : String → Bool := fun u => u != "u1"

/-- C3: the claim states that `disconnect` with no userId tears down all N
sessions and leaves the token map empty even when a remote revoke fails; on the
code, a failing revoke for the first of two tracked sessions aborts the
teardown loop — the second session's token survives in the map and the call
rejects, contradicting the code's own "disconnect all users" / "always remove
the token" comments. -/
theorem C3_failing_case :
    tellerDisconnect revokeFailU1 [("u1", "t1"), ("u2", "t2")] none =
      ([("u2", "t2")], .error (.pulseErr
        { message := "Failed to revoke Teller token: error"
          code := .PROVIDER_DISCONNECTION_FAILED
          provider := some "teller", userId := some "u1" })) ∧
    [("u2", "t2")] ≠ ([] : Tokens) := by
  decide

/-- C7: for every adapter that does not override it, the default
`refreshAccounts` is observably equivalent to `disconnect` followed by
`connect` on the same adapter (identical state evolution), with any failure of
that sequence that is not already tagged re-wrapped into
`ACCOUNT_REFRESH_FAILED`, while an already-tagged error is re-raised
unchanged. -/
theorem C7_refresh_equiv :
    ∀ (σ : Type) (b : AdapterBehavior σ) (pname : String) (uid : Option String) (s : σ),
    (refreshAccountsDefault b pname uid s).1 = (disconnectThenConnect b s).1 ∧
    (refreshAccountsDefault b pname uid s).2 =
      mapThrown (rewrapRefresh pname uid) (disconnectThenConnect b s).2 ∧
    (∀ e, rewrapRefresh pname uid (.pulseErr e) = .pulseErr e) := by
  intro σ b pname uid s
  refine ⟨?_, ?_, fun e => rfl⟩ <;>
  · rcases h1 : b.disconnect s with ⟨s1, r1⟩
    cases r1 with
    | error e => simp [refreshAccountsDefault, disconnectThenConnect, mapThrown, h1]
    | ok u =>
      rcases h2 : b.connect s1 with ⟨s2, r2⟩
      cases r2 <;>
        simp [refreshAccountsDefault, disconnectThenConnect, mapThrown, h1, h2]

/-- C1 counterexample: on a registry of two adapters whose second adapter's
disconnect fails, the provider-less dispatch `disconnect` does not resolve
normally — the individual adapter failure is not swallowed. -/
theorem C1_counterexample :
    (Registry.values pAB.registry).length = 2 ∧
    isError adB.disconnectR = true ∧
    (Pulse.disconnect pAB "u" none).2 ≠ .ok () := by
  decide

/-- C1 (amended): provider-less dispatch `disconnect` attempts every
registered adapter's disconnect (the invocation trace covers the whole
registry), and resolves when all of them resolve; but an individual adapter
failure is not swallowed — it rejects the dispatch call with a tagged
`PulseError` (the failure is re-raised if already tagged, otherwise wrapped as
`PROVIDER_DISCONNECTION_FAILED`). -/
theorem C1_amended :
    ∀ (p : Pulse) (u : String),
    (Pulse.disconnect p u none).1 = (Registry.values p.registry).map (·.provider) ∧
    ((∀ a ∈ Registry.values p.registry, a.disconnectR = .ok ()) →
      (Pulse.disconnect p u none).2 = .ok ()) ∧
    (∀ a ∈ Registry.values p.registry, isError a.disconnectR = true →
      ∃ e, (Pulse.disconnect p u none).2 = .error (.pulseErr e)) := by
  intro p u
  refine ⟨?_, ?_, ?_⟩
  · show ((Registry.values p.registry).map fun a => (a.provider, a.disconnectR)).map (·.1) =
      (Registry.values p.registry).map (·.provider)
    rw [List.map_map]
    rfl
  · intro h
    have hok : firstError
        (((Registry.values p.registry).map fun a => (a.provider, a.disconnectR)).map (·.2)) =
        .ok () := by
      rw [List.map_map]
      apply firstError_ok
      intro r hr
      obtain ⟨a, ha, rfl⟩ := List.mem_map.mp hr
      exact h a ha
    show wrapCatch .PROVIDER_DISCONNECTION_FAILED "Failed to disconnect: " none (some u) none
      (firstError
        (((Registry.values p.registry).map fun a => (a.provider, a.disconnectR)).map (·.2))) =
      .ok ()
    rw [hok]
    rfl
  · intro a ha hfail
    have hmem : a.disconnectR ∈
        ((Registry.values p.registry).map fun a => (a.provider, a.disconnectR)).map (·.2) := by
      rw [List.map_map]
      exact List.mem_map.mpr ⟨a, ha, rfl⟩
    obtain ⟨e, he⟩ := firstError_of_mem_error _ a.disconnectR hmem hfail
    obtain ⟨e2, he2⟩ := wrapCatch_error .PROVIDER_DISCONNECTION_FAILED
      "Failed to disconnect: " none (some u) none e
    refine ⟨e2, ?_⟩
    show wrapCatch .PROVIDER_DISCONNECTION_FAILED "Failed to disconnect: " none (some u) none
      (firstError
        (((Registry.values p.registry).map fun a => (a.provider, a.disconnectR)).map (·.2))) =
      .error (.pulseErr e2)
    rw [he]
    exact he2

/-- C1 witness: the amended statement applied to the concrete two-adapter
registry with a failing second adapter. -/
theorem C1_witness :
    (Pulse.disconnect pAB "u" none).1 = (Registry.values pAB.registry).map (·.provider) ∧
    ∃ e, (Pulse.disconnect pAB "u" none).2 = .error (.pulseErr e) :=
  ⟨(C1_amended pAB "u").1, (C1_amended pAB "u").2.2 adB (by decide) (by decide)⟩

/-- C4: for every registry with at least one adapter, provider-less
`getAccounts` invokes every adapter and returns the concatenation, in
registration order, of each adapter's own account list, a failing adapter
contributing an empty slice instead of aborting the call. -/
theorem C4_accounts_merge :
    ∀ (p : Pulse) (u : String), p.registry ≠ [] →
    (Pulse.getAccounts p u none).1 = (Registry.values p.registry).map (·.provider) ∧
    (Pulse.getAccounts p u none).2 =
      .ok (((Registry.values p.registry).map fun a => caughtAccounts a.getAccountsR).flatten) :=
  fun _ _ _ => ⟨rfl, rfl⟩

/-- C4 witness: the statement applied to the concrete registry where the
second adapter's account fetch fails, yielding just the first adapter's list. -/
theorem C4_witness :
    pAB.registry ≠ [] ∧
    (Pulse.getAccounts pAB "u" none).2 =
      .ok (((Registry.values pAB.registry).map fun a => caughtAccounts a.getAccountsR).flatten) ∧
    (Pulse.getAccounts pAB "u" none).2 = .ok [acct1] :=
  ⟨by decide, (C4_accounts_merge pAB "u" (by decide)).2, by decide⟩

/-- The aggregated error raised when every adapter of the fallback chain fails. -/
def allFailedErr (p : Pulse) (uid acc : String) : PulseError :=
  { message := "All providers failed to fetch transactions: " ++
      joinSemi ((Registry.values p.registry).map txErrMsg)
    code := .TRANSACTION_FETCH_FAILED
    userId := some uid, accountId := some acc }

/-- C5: provider-less `getTransactions` tries the adapters sequentially in
registration order and returns the first success, having invoked exactly the
failing ones before it; when every adapter fails a single tagged
`TRANSACTION_FETCH_FAILED` error is raised whose message contains every
individual adapter's error message verbatim. -/
theorem C5_tx_fallback :
    ∀ (p : Pulse) (acc uid : String),
    (∀ (pre : List Adapter) (a : Adapter) (post : List Adapter) (ts : List Transaction),
      Registry.values p.registry = pre ++ a :: post →
      (∀ b ∈ pre, isError b.getTransactionsR = true) →
      a.getTransactionsR = .ok ts →
      Pulse.getTransactions p acc uid none = ((pre ++ [a]).map (·.provider), .ok ts)) ∧
    ((∀ a ∈ Registry.values p.registry, isError a.getTransactionsR = true) →
      ∃ pe, (Pulse.getTransactions p acc uid none).2 = .error (.pulseErr pe) ∧
        pe.code = .TRANSACTION_FETCH_FAILED ∧
        ∀ a ∈ Registry.values p.registry, ∀ e, a.getTransactionsR = .error e →
          ∃ s t, s ++ (Thrown.msg e).data ++ t = pe.message.data) := by
  intro p acc uid
  constructor
  · intro pre a post ts hsplit hpre ha
    have h1 := txFallback_first_success uid acc pre a post [] ts hpre ha
    simp [Pulse.getTransactions, getTransactionsBody, strTruthy, hsplit, h1, wrapCatch]
  · intro hall
    have h1 := txFallback_all_fail uid acc (Registry.values p.registry) [] hall
    refine ⟨allFailedErr p uid acc, ?_, rfl, ?_⟩
    · simp [Pulse.getTransactions, getTransactionsBody, strTruthy, h1, wrapCatch,
        allFailedErr]
    · intro a ha e he
      have hm : Thrown.msg e = txErrMsg a := by simp [txErrMsg, he]
      have hmem : txErrMsg a ∈ (Registry.values p.registry).map txErrMsg :=
        List.mem_map_of_mem txErrMsg ha
      obtain ⟨s, t, hst⟩ := joinSemi_mem _ _ hmem
      refine ⟨("All providers failed to fetch transactions: ").data ++ s, t, ?_⟩
      show _ = (("All providers failed to fetch transactions: " ++
        joinSemi ((Registry.values p.registry).map txErrMsg)).data)
      rw [hm, strData_append, List.append_assoc, List.append_assoc, ← List.append_assoc s, hst]

/-- C5 witness: the all-fail statement applied to the concrete registry of two
failing adapters. -/
theorem C5_witness :
    (∀ a ∈ Registry.values pFF.registry, isError a.getTransactionsR = true) ∧
    ∃ pe, (Pulse.getTransactions pFF "acc" "u" none).2 = .error (.pulseErr pe) ∧
      pe.code = .TRANSACTION_FETCH_FAILED ∧
      ∀ a ∈ Registry.values pFF.registry, ∀ e, a.getTransactionsR = .error e →
        ∃ s t, s ++ (Thrown.msg e).data ++ t = pe.message.data :=
  ⟨by decide, (C5_tx_fallback pFF "acc" "u").2 (by decide)⟩

/-- C6: adapter resolution obeys the claimed precedence — a truthy name
resolves to exactly its registered adapter and an unregistered name fails with
`PROVIDER_NOT_FOUND` carrying the requested name in its `provider` field; with
no name, a truthy registered default provider is used; otherwise the
first-inserted registry value, which for distinct providers is the
first-constructed adapter. -/
theorem C6_adapter_resolution :
    (∀ (p : Pulse) (s : String) (a : Adapter), s ≠ "" →
      Registry.lookup p.registry s = some a → p.getAdapter (some s) = .ok a) ∧
    (∀ (p : Pulse) (s : String), s ≠ "" → Registry.lookup p.registry s = none →
      p.getAdapter (some s) = .error (.pulseErr (providerNotFoundErr s)) ∧
        (providerNotFoundErr s).provider = some s ∧
        (providerNotFoundErr s).code = .PROVIDER_NOT_FOUND) ∧
    (∀ (p : Pulse) (d : String) (a : Adapter), p.defaultProvider = some d → d ≠ "" →
      Registry.lookup p.registry d = some a → p.getAdapter none = .ok a) ∧
    (∀ (p : Pulse) (d : String) (a : Adapter), p.defaultProvider = some d →
      Registry.lookup p.registry d = none →
      (Registry.values p.registry).head? = some a → p.getAdapter none = .ok a) ∧
    (∀ (a : Adapter) (rest : List Adapter) (p : Pulse),
      (((a :: rest).map (·.provider)).Nodup) →
      mkPulse { adapters := some (a :: rest) } = .ok p →
      p.getAdapter none = .ok a) := by
  refine ⟨?_, ?_, ?_, ?_, ?_⟩
  · intro p s a hs hlook
    simp [Pulse.getAdapter, hs, hlook]
  · intro p s hs hlook
    exact ⟨by simp [Pulse.getAdapter, hs, hlook], rfl, rfl⟩
  · intro p d a hd hdne hlook
    simp [Pulse.getAdapter, Pulse.firstOrDefault, hd, hdne, hlook]
  · intro p d a hd hlook hhead
    by_cases hdne : d = ""
    · subst hdne
      simp [Pulse.getAdapter, Pulse.firstOrDefault, hd, hhead]
    · simp [Pulse.getAdapter, Pulse.firstOrDefault, hd, hdne, hlook, hhead]
  · intro a rest p hnd hmk
    simp only [mkPulse, List.isEmpty_cons, if_false, Bool.false_eq_true] at hmk
    have hp : p = { registry := buildRegistry (a :: rest), defaultProvider := none } := by
      cases hmk
      rfl
    subst hp
    have hv : Registry.values (buildRegistry (a :: rest)) = a :: rest :=
      values_buildRegistry _ hnd
    simp [Pulse.getAdapter, Pulse.firstOrDefault, hv]

/-- C6 witness: resolution applied to the concrete two-adapter registry — a
registered name, an unregistered name, and the no-name first-registered
fallback. -/
theorem C6_witness :
    Pulse.getAdapter pAB (some "beta") = .ok adB ∧
    Pulse.getAdapter pAB (some "gamma") = .error (.pulseErr (providerNotFoundErr "gamma")) ∧
    Pulse.getAdapter pAB none = .ok adA :=
  ⟨C6_adapter_resolution.1 pAB "beta" adB (by decide) (by decide),
   (C6_adapter_resolution.2.1 pAB "gamma" (by decide) (by decide)).1,
   C6_adapter_resolution.2.2.2.2 adA [adB] pAB (by decide) (by decide)⟩

/-- C10: passing the empty string as the provider argument is treated exactly
as if no provider were named — `getAdapter` resolves identically, every
operation body takes the same default/fan-out/fallback path, and the
empty-string resolution never raises `PROVIDER_NOT_FOUND`, because provider
selection tests the argument for truthiness rather than presence. -/
theorem C10_empty_provider :
    (∀ p : Pulse, p.getAdapter (some "") = p.getAdapter none) ∧
    (∀ p : Pulse, disconnectBody p (some "") = disconnectBody p none) ∧
    (∀ p : Pulse, connectBody p (some "") = connectBody p none) ∧
    (∀ p : Pulse, getAccountsBody p (some "") = getAccountsBody p none) ∧
    (∀ (p : Pulse) (acc uid : String),
      getTransactionsBody p acc uid (some "") = getTransactionsBody p acc uid none) ∧
    (∀ p : Pulse, refreshAccountsBody p (some "") = refreshAccountsBody p none) ∧
    (∀ p : Pulse, notFoundRaised (p.getAdapter (some "")) = false) := by
  refine ⟨fun p => rfl, fun p => rfl, fun p => rfl, fun p => rfl, fun p _ _ => rfl,
    fun p => rfl, ?_⟩
  intro p
  show notFoundRaised p.firstOrDefault = false
  unfold Pulse.firstOrDefault
  cases hd : p.defaultProvider with
  | none => cases hh : (Registry.values p.registry).head? <;> simp [notFoundRaised]
  | some d =>
    cases hl : Registry.lookup p.registry d <;>
      cases hh : (Registry.values p.registry).head? <;>
        by_cases hne : (d != "") = true <;>
          simp [notFoundRaised, hl, hh, hne]
